import Mathlib

/-
Shallow embedding of the voxify request-processing core
(`internal/services`: ProcessService, EpisodeService; `internal/store`:
SQLiteStore.ProcessUpsert; `internal/telegram`: Handlers.sendRequest).

Collaborator behavior (Store, Downloader, Builder) is an oracle `Env`:
one `Env` value fixes the outcome of every collaborator call of a single
`handle` (or `Init`) run.  The service functions return, besides their
result, the list of observable events of the run: ProcessUpsert calls
(with the snapshot passed to the store and the store's answer),
notifications sent on the notify channel, and the Downloader/Builder
invocations.
-/

namespace Voxify

/-- Processing step of a task (`entities.Step` in `internal/entities/process.go`). -/
inductive Step
  | creating
  | downloading
  | publishing
deriving DecidableEq

/-- Processing status of a task (`entities.Status`). -/
inductive Status
  | inProgress
  | success
  | failed
deriving DecidableEq

/-- Errors of the services and telegram packages (`internal/services/errors.go`,
`internal/telegram`).  Go error wrapping `fmt.Errorf("%w: %w", sentinel, err)` is
modelled as a constructor holding the inner error; `store` and `external` stand for
opaque errors produced by the SQL layer or by collaborators. -/
inductive Err
  | noMatchingPlatform
  | downloadFailed (inner : Err)
  | episodeInProgress
  | episodeExists
  | processInterrupted
  | processUpsertFailed (inner : Err)
  | processGetByURL (inner : Err)
  | episodeGetByOriginalURL (inner : Err)
  | episodeCreate (inner : Err)
  | processGetByStatus (inner : Err)
  | processorBusy
  | contextDone (inner : Err)
  | store (msg : String)
  | external (msg : String)
deriving DecidableEq

/-- Podcast episode (`entities.Episode`).  The store-owned `CreatedAt` timestamp is
wall-clock data outside the embedding and is omitted. -/
structure Episode where
  id : Int := 0
  title : String := ""
  description : String := ""
  thumbnailFile : String := ""
  mediaFile : String := ""
  mediaType : String := ""
  mediaDuration : Int := 0
  mediaSize : Int := 0
  author : String := ""
  originalURL : String := ""
  canonicalURL : String := ""
deriving DecidableEq

/-- Download request (`entities.Request`). -/
structure Request where
  id : String := ""
  userID : Int := 0
  chatID : Int := 0
  messageID : Int := 0
  url : String := ""
  downloadFormat : String := ""
  downloadQuality : String := ""
  force : Bool := false
deriving DecidableEq

/-- Media processing task (`entities.Process`).  `id` is 0 until first persisted;
the store-owned `CreatedAt`/`UpdatedAt` timestamps are omitted. -/
structure Process where
  id : Int := 0
  request : Request
  step : Step
  status : Status
  error : Option Err := none
  episode : Option Episode := none
deriving DecidableEq

/-- One resolved behavior of the collaborators (Store, Downloader, Builder) over a
single run.  `upsertResult n` is the outcome of the n-th `Store.ProcessUpsert`
call of the run (`none` = success); `newId` is the row id the store assigns when
inserting a process whose id is still 0 (SQLite `INSERT .. RETURNING id`);
`countByUrlInProgress` answers `Store.ProcessCountByUrlAndStatus` for the
request's URL; `episodesByOriginalUrl` answers `Store.EpisodeGetByOriginalUrl`;
`download` is `Downloader.Download`'s result; `build` is `Builder.Build`'s result;
`processesInProgress` answers `Store.ProcessGetByStatus(StatusInProgress)`. -/
structure Env where
  upsertResult : Nat → Option Err
  newId : Int := 1
  countByUrlInProgress : Except Err Nat := .ok 1
  episodesByOriginalUrl : Except Err (List Episode) := .ok []
  download : Except Err Episode := .error .noMatchingPlatform
  build : Option Err := none
  processesInProgress : Except Err (List Process) := .ok []

/-- Observable events of a run: a `ProcessUpsert` store call (post-call snapshot
and the store's answer), a notification sent on the notify channel, and the
Downloader / Builder invocations. -/
inductive Event
  | persist (p : Process) (result : Option Err)
  | notify (p : Process)
  | downloadCall
  | buildCall
deriving DecidableEq

/-- Store.ProcessUpsert (`SQLiteStore.ProcessUpsert`): create-or-update keyed on
whether `p.id = 0`; a successful insert assigns the store-generated id to the
in-memory process.  Returns the updated process and the call's outcome. -/
def processUpsert (env : Env) (n : Nat) (p : Process) : Process × Option Err :=
  match env.upsertResult n with
  | some e => (p, some e)
  | none => (if p.id = 0 then { p with id := env.newId } else p, none)

/-- ProcessService.update: upsert the process, then notify; a failed upsert
returns the wrapped error without notifying. -/
def update (env : Env) (n : Nat) (p : Process) : List Event × Process × Option Err :=
  match processUpsert env n p with
  | (p1, some e) => ([.persist p1 (some e)], p1, some (.processUpsertFailed e))
  | (p1, none) => ([.persist p1 none, .notify p1], p1, none)

/-- ProcessService.fail: mark the process failed with the given error, upsert it
(best effort, the upsert's own failure is only logged) and always notify. -/
def fail (env : Env) (n : Nat) (p : Process) (e : Err) : List Event × Process :=
  let r := processUpsert env n { p with status := .failed, error := some e }
  ([.persist r.1 r.2, .notify r.1], r.1)

/-- ProcessService.validate: reject when another process for the same URL is in
progress (count > 1, the candidate itself being counted), and, unless `Force`,
when an episode for the original URL already exists. -/
def validate (env : Env) (p : Process) : Option Err :=
  match env.countByUrlInProgress with
  | .error e => some (.processGetByURL e)
  | .ok count =>
    if count > 1 then some .episodeInProgress
    else if p.request.force then none
    else
      match env.episodesByOriginalUrl with
      | .error e => some (.episodeGetByOriginalURL e)
      | .ok existing => if existing.length > 0 then some .episodeExists else none

/-- ProcessService.handle: create, validate, download, build, succeed — with
early exit to `fail` on any error.  Upsert calls are numbered in program order
within the run. -/
def handle (env : Env) (req : Request) : List Event × Process :=
  let process : Process := { request := req, step := .creating, status := .inProgress }
  match update env 0 process with
  | (ev0, p0, some e) =>
    let f := fail env 1 p0 e
    (ev0 ++ f.1, f.2)
  | (ev0, p0, none) =>
    match validate env p0 with
    | some e =>
      let f := fail env 1 p0 e
      (ev0 ++ f.1, f.2)
    | none =>
      match update env 1 { p0 with step := .downloading } with
      | (ev1, p1, some e) =>
        let f := fail env 2 p1 e
        (ev0 ++ ev1 ++ f.1, f.2)
      | (ev1, p1, none) =>
        match env.download with
        | .error e =>
          let f := fail env 2 { p1 with episode := none } e
          (ev0 ++ ev1 ++ [.downloadCall] ++ f.1, f.2)
        | .ok ep =>
          let p1e := { p1 with episode := some ep }
          match update env 2 { p1e with step := .publishing } with
          | (ev2, p2, some e) =>
            let f := fail env 3 p2 e
            (ev0 ++ ev1 ++ [.downloadCall] ++ ev2 ++ f.1, f.2)
          | (ev2, p2, none) =>
            match env.build with
            | some e =>
              let f := fail env 3 p2 e
              (ev0 ++ ev1 ++ [.downloadCall] ++ ev2 ++ [.buildCall] ++ f.1, f.2)
            | none =>
              match update env 3 { p2 with status := .success } with
              | (ev3, p3, some e) =>
                let f := fail env 4 p3 e
                (ev0 ++ ev1 ++ [.downloadCall] ++ ev2 ++ [.buildCall] ++ ev3 ++ f.1, f.2)
              | (ev3, p3, none) =>
                (ev0 ++ ev1 ++ [.downloadCall] ++ ev2 ++ [.buildCall] ++ ev3, p3)

/-- Recovery loop body of ProcessService.Init: fail and upsert each fetched
in-progress process in order; a failed upsert aborts with the wrapped error,
a successful one is followed by a notification. -/
def initLoop (env : Env) (n : Nat) : List Process → List Event × Option Err
  | [] => ([], none)
  | p :: rest =>
    let p1 := { p with status := Status.failed, error := some Err.processInterrupted }
    match processUpsert env n p1 with
    | (q, some e) => ([.persist q (some e)], some (.processUpsertFailed e))
    | (q, none) =>
      let r := initLoop env (n + 1) rest
      ([.persist q none, .notify q] ++ r.1, r.2)

/-- ProcessService.Init: fetch every in-progress process and fail each of them;
a failed fetch aborts with the wrapped error. -/
def svcInit (env : Env) : List Event × Option Err :=
  match env.processesInProgress with
  | .error e => ([], some (.processGetByStatus e))
  | .ok ps => initLoop env 0 ps

/-- External media platform (`services.Platform`), behavior-resolved: whether it
matches a URL and the outcome of its Download call. -/
structure Platform where
  urlMatch : String → Bool
  download : Request → Except Err Episode

/-- Behavior of EpisodeService's collaborators and configuration for one
`Download` call. -/
structure EpisodeEnv where
  platforms : List Platform
  downloadFormat : String := "mp3"
  downloadQuality : String := ""
  episodeCreate : Episode → Option Err := fun _ => none

/-- EpisodeService.findPlatform: first platform matching the URL. -/
def findPlatform (platforms : List Platform) (url : String) : Option Platform :=
  platforms.find? fun p => p.urlMatch url

/-- Request with empty format/quality defaulted from the configuration, as done
at the top of EpisodeService.Download. -/
def effReq (env : EpisodeEnv) (req : Request) : Request :=
  let req := if req.downloadFormat = "" then { req with downloadFormat := env.downloadFormat } else req
  if req.downloadQuality = "" then { req with downloadQuality := env.downloadQuality } else req

/-- EpisodeService.Download: default format/quality, pick the platform, download
(platform errors wrapped as download failures), save the episode to the store
(store errors wrapped as episode-create failures). -/
def episodeDownload (env : EpisodeEnv) (req : Request) : Except Err Episode :=
  let req := effReq env req
  match findPlatform env.platforms req.url with
  | none => .error .noMatchingPlatform
  | some platform =>
    match platform.download req with
    | .error e => .error (.downloadFailed e)
    | .ok episode =>
      match env.episodeCreate episode with
      | some e => .error (.episodeCreate e)
      | none => .ok episode

/-- Resolution of the three-way select in Handlers.sendRequest: the request was
handed to a worker, the timeout fired first, or the context was cancelled first
(carrying the context's error). -/
inductive SelectOutcome
  | sent
  | timedOut
  | ctxDone (e : Err)
deriving DecidableEq

/-- Admission timeout of Handlers.sendRequest, in seconds (`time.Second * 2`). -/
def sendRequestTimeoutSeconds : Nat := 2

/-- Handlers.sendRequest: map the select resolution to the returned error; the
function performs no store call at all, hence the empty event list. -/
def sendRequest (o : SelectOutcome) : List Event × Option Err :=
  match o with
  | .sent => ([], none)
  | .timedOut => ([], some .processorBusy)
  | .ctxDone e => ([], some (.contextDone e))

/-- Snapshot carried by an event, if any. -/
def snapshotOf : Event → Option Process
  | .persist p _ => some p
  | .notify p => some p
  | _ => none

/-- All process snapshots observed in a trace, in order (persist calls and
notifications). -/
def snapshots (tr : List Event) : List Process :=
  tr.filterMap snapshotOf

/-- Snapshots sent on the notify channel, in order. -/
def notified (tr : List Event) : List Process :=
  tr.filterMap fun ev => match ev with | .notify p => some p | _ => none

/-- Snapshots of the successful ProcessUpsert calls, in order: the states the
database actually stored. -/
def persistedOk (tr : List Event) : List Process :=
  tr.filterMap fun ev => match ev with | .persist p none => some p | _ => none

/-- Rank of a step in the pipeline order Creating < Downloading < Publishing. -/
def stepRank : Step → Nat
  | .creating => 0
  | .downloading => 1
  | .publishing => 2

/-- Process as first built by `handle` from a request, before any store call. -/
def mkProcess (req : Request) : Process :=
  { request := req, step := .creating, status := .inProgress }

/-- Process right after the successful create persist (the store assigned `newId`). -/
def created (env : Env) (req : Request) : Process :=
  { mkProcess req with id := env.newId }

/-- Process at the pre-download persist. -/
def downP (env : Env) (req : Request) : Process :=
  { created env req with step := .downloading }

/-- Process at the pre-build persist: episode attached, step publishing. -/
def pubP (env : Env) (req : Request) (ep : Episode) : Process :=
  { downP env req with episode := some ep, step := .publishing }

/-- Process at the terminal persist of the happy path. -/
def succP (env : Env) (req : Request) (ep : Episode) : Process :=
  { pubP env req ep with status := .success }

/-- Snapshot persisted and notified by `fail`. -/
def failProc (env : Env) (n : Nat) (p : Process) (e : Err) : Process :=
  (processUpsert env n { p with status := .failed, error := some e }).1

lemma processUpsert_snd (env : Env) (n : Nat) (p : Process) :
    (processUpsert env n p).2 = env.upsertResult n := by
  rcases h : env.upsertResult n with _ | e <;> simp [processUpsert, h]

lemma processUpsert_fst (env : Env) (n : Nat) (p : Process) :
    (processUpsert env n p).1 =
      if env.upsertResult n = none ∧ p.id = 0 then { p with id := env.newId } else p := by
  rcases h : env.upsertResult n with _ | e <;> simp [processUpsert, h]

lemma processUpsert_id_self (env : Env) (n : Nat) (p : Process) (h : p.id = env.newId) :
    (processUpsert env n p).1 = p := by
  rw [processUpsert_fst]
  split
  · rcases p with ⟨i, r, s, st, er, ep⟩
    simp_all
  · rfl

lemma processUpsert_step (env : Env) (n : Nat) (p : Process) :
    ((processUpsert env n p).1).step = p.step := by
  rw [processUpsert_fst]; split <;> rfl

lemma processUpsert_status (env : Env) (n : Nat) (p : Process) :
    ((processUpsert env n p).1).status = p.status := by
  rw [processUpsert_fst]; split <;> rfl

lemma processUpsert_error (env : Env) (n : Nat) (p : Process) :
    ((processUpsert env n p).1).error = p.error := by
  rw [processUpsert_fst]; split <;> rfl

lemma processUpsert_episode (env : Env) (n : Nat) (p : Process) :
    ((processUpsert env n p).1).episode = p.episode := by
  rw [processUpsert_fst]; split <;> rfl

lemma processUpsert_request (env : Env) (n : Nat) (p : Process) :
    ((processUpsert env n p).1).request = p.request := by
  rw [processUpsert_fst]; split <;> rfl

lemma failProc_status (env : Env) (n : Nat) (p : Process) (e : Err) :
    (failProc env n p e).status = .failed := by
  simp [failProc, processUpsert_status]

lemma failProc_error (env : Env) (n : Nat) (p : Process) (e : Err) :
    (failProc env n p e).error = some e := by
  simp [failProc, processUpsert_error]

lemma failProc_step (env : Env) (n : Nat) (p : Process) (e : Err) :
    (failProc env n p e).step = p.step := by
  simp [failProc, processUpsert_step]

lemma failProc_episode (env : Env) (n : Nat) (p : Process) (e : Err) :
    (failProc env n p e).episode = p.episode := by
  simp [failProc, processUpsert_episode]

lemma failProc_request (env : Env) (n : Nat) (p : Process) (e : Err) :
    (failProc env n p e).request = p.request := by
  simp [failProc, processUpsert_request]

lemma failProc_id_self (env : Env) (n : Nat) (p : Process) (e : Err) (h : p.id = env.newId) :
    failProc env n p e = { p with status := .failed, error := some e } := by
  simp [failProc]
  exact processUpsert_id_self env n _ h

lemma fail_eq (env : Env) (n : Nat) (p : Process) (e : Err) :
    fail env n p e =
      ([.persist (failProc env n p e) (env.upsertResult n), .notify (failProc env n p e)],
       failProc env n p e) := by
  simp [fail, failProc, processUpsert_snd]

lemma update_err (env : Env) (n : Nat) (p : Process) (e : Err)
    (h : env.upsertResult n = some e) :
    update env n p = ([.persist p (some e)], p, some (.processUpsertFailed e)) := by
  simp [update, processUpsert, h]

lemma update_ok (env : Env) (n : Nat) (p : Process) (h : env.upsertResult n = none) :
    update env n p =
      ([.persist (processUpsert env n p).1 none, .notify (processUpsert env n p).1],
       (processUpsert env n p).1, none) := by
  simp [update, processUpsert, h]

lemma createdProc_eq (env : Env) (req : Request) (h : env.upsertResult 0 = none) :
    (processUpsert env 0
        { id := 0, request := req, step := .creating, status := .inProgress,
          error := none, episode := none }).1 = created env req := by
  simp [processUpsert_fst, h, mkProcess, created]

lemma created_id (env : Env) (req : Request) : (created env req).id = env.newId := rfl

lemma created_request (env : Env) (req : Request) : (created env req).request = req := rfl

lemma created_step (env : Env) (req : Request) : (created env req).step = .creating := rfl

lemma created_status (env : Env) (req : Request) : (created env req).status = .inProgress := rfl

lemma created_error (env : Env) (req : Request) : (created env req).error = none := rfl

lemma created_episode (env : Env) (req : Request) : (created env req).episode = none := rfl

lemma mkProcess_step (req : Request) : (mkProcess req).step = .creating := rfl

lemma mkProcess_status (req : Request) : (mkProcess req).status = .inProgress := rfl

lemma mkProcess_error (req : Request) : (mkProcess req).error = none := rfl

lemma mkProcess_episode (req : Request) : (mkProcess req).episode = none := rfl

lemma mkProcess_request (req : Request) : (mkProcess req).request = req := rfl

lemma mkProcess_id (req : Request) : (mkProcess req).id = 0 := rfl

lemma downP_id (env : Env) (req : Request) : (downP env req).id = env.newId := rfl

lemma downP_request (env : Env) (req : Request) : (downP env req).request = req := rfl

lemma downP_step (env : Env) (req : Request) : (downP env req).step = .downloading := rfl

lemma downP_status (env : Env) (req : Request) : (downP env req).status = .inProgress := rfl

lemma downP_error (env : Env) (req : Request) : (downP env req).error = none := rfl

lemma downP_episode (env : Env) (req : Request) : (downP env req).episode = none := rfl

lemma pubP_id (env : Env) (req : Request) (ep : Episode) : (pubP env req ep).id = env.newId := rfl

lemma pubP_request (env : Env) (req : Request) (ep : Episode) :
    (pubP env req ep).request = req := rfl

lemma pubP_step (env : Env) (req : Request) (ep : Episode) :
    (pubP env req ep).step = .publishing := rfl

lemma pubP_status (env : Env) (req : Request) (ep : Episode) :
    (pubP env req ep).status = .inProgress := rfl

lemma pubP_error (env : Env) (req : Request) (ep : Episode) : (pubP env req ep).error = none := rfl

lemma pubP_episode (env : Env) (req : Request) (ep : Episode) :
    (pubP env req ep).episode = some ep := rfl

lemma succP_id (env : Env) (req : Request) (ep : Episode) :
    (succP env req ep).id = env.newId := rfl

lemma succP_request (env : Env) (req : Request) (ep : Episode) :
    (succP env req ep).request = req := rfl

lemma succP_step (env : Env) (req : Request) (ep : Episode) :
    (succP env req ep).step = .publishing := rfl

lemma succP_status (env : Env) (req : Request) (ep : Episode) :
    (succP env req ep).status = .success := rfl

lemma succP_error (env : Env) (req : Request) (ep : Episode) :
    (succP env req ep).error = none := rfl

lemma succP_episode (env : Env) (req : Request) (ep : Episode) :
    (succP env req ep).episode = some ep := rfl

/-- Path of `handle` where the create persist fails. -/
lemma handle_createErr (env : Env) (req : Request) (e : Err)
    (h0 : env.upsertResult 0 = some e) :
    handle env req =
      ([.persist (mkProcess req) (some e),
        .persist (failProc env 1 (mkProcess req) (.processUpsertFailed e)) (env.upsertResult 1),
        .notify (failProc env 1 (mkProcess req) (.processUpsertFailed e))],
       failProc env 1 (mkProcess req) (.processUpsertFailed e)) := by
  simp [handle, update_err env 0 _ e h0, fail_eq]
  try simp [mkProcess]

/-- Path of `handle` where the create persist succeeds and validation rejects. -/
lemma handle_validateErr (env : Env) (req : Request) (e : Err)
    (h0 : env.upsertResult 0 = none)
    (hv : validate env (created env req) = some e) :
    handle env req =
      ([.persist (created env req) none, .notify (created env req),
        .persist (failProc env 1 (created env req) e) (env.upsertResult 1),
        .notify (failProc env 1 (created env req) e)],
       failProc env 1 (created env req) e) := by
  simp [handle, update_ok env 0 _ h0, createdProc_eq env req h0, hv, fail_eq]
  try simp [created, mkProcess]

/-- Path of `handle` where the pre-download persist fails. -/
lemma handle_downPersistErr (env : Env) (req : Request) (e : Err)
    (h0 : env.upsertResult 0 = none)
    (hv : validate env (created env req) = none)
    (h1 : env.upsertResult 1 = some e) :
    handle env req =
      ([.persist (created env req) none, .notify (created env req),
        .persist (downP env req) (some e),
        .persist (failProc env 2 (downP env req) (.processUpsertFailed e)) (env.upsertResult 2),
        .notify (failProc env 2 (downP env req) (.processUpsertFailed e))],
       failProc env 2 (downP env req) (.processUpsertFailed e)) := by
  simp [handle, update_ok env 0 _ h0, createdProc_eq env req h0, hv,
    update_err env 1 _ e h1, fail_eq]
  try simp [downP, created, mkProcess]

/-- Path of `handle` where the Downloader fails. -/
lemma handle_downloadErr (env : Env) (req : Request) (e : Err)
    (h0 : env.upsertResult 0 = none)
    (hv : validate env (created env req) = none)
    (h1 : env.upsertResult 1 = none)
    (hd : env.download = .error e) :
    handle env req =
      ([.persist (created env req) none, .notify (created env req),
        .persist (downP env req) none, .notify (downP env req),
        .downloadCall,
        .persist (failProc env 2 (downP env req) e) (env.upsertResult 2),
        .notify (failProc env 2 (downP env req) e)],
       failProc env 2 (downP env req) e) := by
  simp [handle, update_ok env 0 _ h0, createdProc_eq env req h0, hv,
    update_ok env 1 _ h1, processUpsert_id_self, created_id, hd, fail_eq]
  try simp [downP, created, mkProcess]

/-- Path of `handle` where the pre-build persist fails. -/
lemma handle_pubPersistErr (env : Env) (req : Request) (ep : Episode) (e : Err)
    (h0 : env.upsertResult 0 = none)
    (hv : validate env (created env req) = none)
    (h1 : env.upsertResult 1 = none)
    (hd : env.download = .ok ep)
    (h2 : env.upsertResult 2 = some e) :
    handle env req =
      ([.persist (created env req) none, .notify (created env req),
        .persist (downP env req) none, .notify (downP env req),
        .downloadCall,
        .persist (pubP env req ep) (some e),
        .persist (failProc env 3 (pubP env req ep) (.processUpsertFailed e)) (env.upsertResult 3),
        .notify (failProc env 3 (pubP env req ep) (.processUpsertFailed e))],
       failProc env 3 (pubP env req ep) (.processUpsertFailed e)) := by
  simp [handle, update_ok env 0 _ h0, createdProc_eq env req h0, hv,
    update_ok env 1 _ h1, processUpsert_id_self, created_id, hd,
    update_err env 2 _ e h2, fail_eq]
  try simp [downP, pubP, created, mkProcess]

/-- Path of `handle` where the Builder fails. -/
lemma handle_buildErr (env : Env) (req : Request) (ep : Episode) (e : Err)
    (h0 : env.upsertResult 0 = none)
    (hv : validate env (created env req) = none)
    (h1 : env.upsertResult 1 = none)
    (hd : env.download = .ok ep)
    (h2 : env.upsertResult 2 = none)
    (hb : env.build = some e) :
    handle env req =
      ([.persist (created env req) none, .notify (created env req),
        .persist (downP env req) none, .notify (downP env req),
        .downloadCall,
        .persist (pubP env req ep) none, .notify (pubP env req ep),
        .buildCall,
        .persist (failProc env 3 (pubP env req ep) e) (env.upsertResult 3),
        .notify (failProc env 3 (pubP env req ep) e)],
       failProc env 3 (pubP env req ep) e) := by
  simp [handle, update_ok env 0 _ h0, createdProc_eq env req h0, hv,
    update_ok env 1 _ h1, processUpsert_id_self, created_id, hd,
    update_ok env 2 _ h2, hb, fail_eq]
  try simp [downP, pubP, created, mkProcess]

/-- Path of `handle` where the terminal persist fails. -/
lemma handle_succPersistErr (env : Env) (req : Request) (ep : Episode) (e : Err)
    (h0 : env.upsertResult 0 = none)
    (hv : validate env (created env req) = none)
    (h1 : env.upsertResult 1 = none)
    (hd : env.download = .ok ep)
    (h2 : env.upsertResult 2 = none)
    (hb : env.build = none)
    (h3 : env.upsertResult 3 = some e) :
    handle env req =
      ([.persist (created env req) none, .notify (created env req),
        .persist (downP env req) none, .notify (downP env req),
        .downloadCall,
        .persist (pubP env req ep) none, .notify (pubP env req ep),
        .buildCall,
        .persist (succP env req ep) (some e),
        .persist (failProc env 4 (succP env req ep) (.processUpsertFailed e)) (env.upsertResult 4),
        .notify (failProc env 4 (succP env req ep) (.processUpsertFailed e))],
       failProc env 4 (succP env req ep) (.processUpsertFailed e)) := by
  simp [handle, update_ok env 0 _ h0, createdProc_eq env req h0, hv,
    update_ok env 1 _ h1, processUpsert_id_self, created_id, hd,
    update_ok env 2 _ h2, hb, update_err env 3 _ e h3, fail_eq]
  try simp [downP, pubP, succP, created, mkProcess]

/-- Happy path of `handle`: every collaborator call succeeds. -/
lemma handle_ok (env : Env) (req : Request) (ep : Episode)
    (h0 : env.upsertResult 0 = none)
    (hv : validate env (created env req) = none)
    (h1 : env.upsertResult 1 = none)
    (hd : env.download = .ok ep)
    (h2 : env.upsertResult 2 = none)
    (hb : env.build = none)
    (h3 : env.upsertResult 3 = none) :
    handle env req =
      ([.persist (created env req) none, .notify (created env req),
        .persist (downP env req) none, .notify (downP env req),
        .downloadCall,
        .persist (pubP env req ep) none, .notify (pubP env req ep),
        .buildCall,
        .persist (succP env req ep) none, .notify (succP env req ep)],
       succP env req ep) := by
  simp [handle, update_ok env 0 _ h0, createdProc_eq env req h0, hv,
    update_ok env 1 _ h1, processUpsert_id_self, created_id, hd,
    update_ok env 2 _ h2, hb, update_ok env 3 _ h3, fail_eq]
  try simp [downP, pubP, succP, created, mkProcess]

/-- Exactly one of the eight control-flow paths of `handle` applies to a run. -/
lemma handle_split (env : Env) (req : Request) :
    (∃ e, env.upsertResult 0 = some e) ∨
    (env.upsertResult 0 = none ∧ (∃ e, validate env (created env req) = some e)) ∨
    (env.upsertResult 0 = none ∧ validate env (created env req) = none ∧
      (∃ e, env.upsertResult 1 = some e)) ∨
    (env.upsertResult 0 = none ∧ validate env (created env req) = none ∧
      env.upsertResult 1 = none ∧ (∃ e, env.download = .error e)) ∨
    (∃ ep, env.upsertResult 0 = none ∧ validate env (created env req) = none ∧
      env.upsertResult 1 = none ∧ env.download = .ok ep ∧
      (∃ e, env.upsertResult 2 = some e)) ∨
    (∃ ep, env.upsertResult 0 = none ∧ validate env (created env req) = none ∧
      env.upsertResult 1 = none ∧ env.download = .ok ep ∧
      env.upsertResult 2 = none ∧ (∃ e, env.build = some e)) ∨
    (∃ ep, env.upsertResult 0 = none ∧ validate env (created env req) = none ∧
      env.upsertResult 1 = none ∧ env.download = .ok ep ∧
      env.upsertResult 2 = none ∧ env.build = none ∧ (∃ e, env.upsertResult 3 = some e)) ∨
    (∃ ep, env.upsertResult 0 = none ∧ validate env (created env req) = none ∧
      env.upsertResult 1 = none ∧ env.download = .ok ep ∧
      env.upsertResult 2 = none ∧ env.build = none ∧ env.upsertResult 3 = none) := by
  rcases h0 : env.upsertResult 0 with _ | e0
  · rcases hv : validate env (created env req) with _ | ev
    · rcases h1 : env.upsertResult 1 with _ | e1
      · rcases hd : env.download with ed | ep
        · exact Or.inr (Or.inr (Or.inr (Or.inl ⟨rfl, rfl, rfl, ed, rfl⟩)))
        · rcases h2 : env.upsertResult 2 with _ | e2
          · rcases hb : env.build with _ | eb
            · rcases h3 : env.upsertResult 3 with _ | e3
              · exact Or.inr (Or.inr (Or.inr (Or.inr (Or.inr (Or.inr (Or.inr
                  ⟨ep, rfl, rfl, rfl, rfl, rfl, rfl, rfl⟩))))))
              · exact Or.inr (Or.inr (Or.inr (Or.inr (Or.inr (Or.inr (Or.inl
                  ⟨ep, rfl, rfl, rfl, rfl, rfl, rfl, e3, rfl⟩))))))
            · exact Or.inr (Or.inr (Or.inr (Or.inr (Or.inr (Or.inl
                ⟨ep, rfl, rfl, rfl, rfl, rfl, eb, rfl⟩)))))
          · exact Or.inr (Or.inr (Or.inr (Or.inr (Or.inl ⟨ep, rfl, rfl, rfl, rfl, e2, rfl⟩))))
      · exact Or.inr (Or.inr (Or.inl ⟨rfl, rfl, e1, rfl⟩))
    · exact Or.inr (Or.inl ⟨rfl, ev, rfl⟩)
  · exact Or.inl ⟨e0, rfl⟩

/-- C2: for every Request processed by `handle` and every collaborator behavior,
the Step values carried by the successive persisted/notified snapshots of the
Process form a non-decreasing sequence in the order
Creating < Downloading < Publishing, and the `fail` transition leaves Step
unchanged at the stage where the failure occurred. -/
theorem c2_steps_nondecreasing (env : Env) (req : Request) :
    List.Pairwise (fun a b => stepRank a ≤ stepRank b)
      ((snapshots (handle env req).1).map Process.step)
    ∧ ∀ (n : Nat) (p : Process) (e : Err), ((fail env n p e).2).step = p.step := by
  constructor
  · rcases handle_split env req with ⟨e, h0⟩ | ⟨h0, e, hv⟩ | ⟨h0, hv, e, h1⟩
      | ⟨h0, hv, h1, e, hd⟩ | ⟨ep, h0, hv, h1, hd, e, h2⟩ | ⟨ep, h0, hv, h1, hd, h2, e, hb⟩
      | ⟨ep, h0, hv, h1, hd, h2, hb, e, h3⟩ | ⟨ep, h0, hv, h1, hd, h2, hb, h3⟩
    · rw [handle_createErr env req e h0]
      simp [snapshots, snapshotOf, failProc_step, mkProcess_step, stepRank]
    · rw [handle_validateErr env req e h0 hv]
      simp [snapshots, snapshotOf, failProc_step, created_step, stepRank]
    · rw [handle_downPersistErr env req e h0 hv h1]
      simp [snapshots, snapshotOf, failProc_step, created_step, downP_step, stepRank]
    · rw [handle_downloadErr env req e h0 hv h1 hd]
      simp [snapshots, snapshotOf, failProc_step, created_step, downP_step, stepRank]
    · rw [handle_pubPersistErr env req ep e h0 hv h1 hd h2]
      simp [snapshots, snapshotOf, failProc_step, created_step, downP_step, pubP_step, stepRank]
    · rw [handle_buildErr env req ep e h0 hv h1 hd h2 hb]
      simp [snapshots, snapshotOf, failProc_step, created_step, downP_step, pubP_step, stepRank]
    · rw [handle_succPersistErr env req ep e h0 hv h1 hd h2 hb h3]
      simp [snapshots, snapshotOf, failProc_step, created_step, downP_step, pubP_step,
        succP_step, stepRank]
    · rw [handle_ok env req ep h0 hv h1 hd h2 hb h3]
      simp [snapshots, snapshotOf, created_step, downP_step, pubP_step, succP_step, stepRank]
  · intro n p e
    rw [fail_eq]
    exact failProc_step env n p e

/-- A status sequence is frozen once terminal: every value that follows a
non-InProgress value equals that value (so in particular Success is never
followed by Failed, nor Failed by Success, and a terminal value occurs for at
most one terminal status). -/
abbrev StatusFrozen (l : List Status) : Prop :=
  l.Pairwise fun a b => a ≠ Status.inProgress → b = a

/-- Statuses of all snapshots observed in a trace. -/
def statusesOf (tr : List Event) : List Status :=
  (snapshots tr).map Process.status

/-- Store behavior whose fourth ProcessUpsert call — the terminal persist of an
otherwise fully successful run — fails; every other collaborator call succeeds. -/
def c1Env : Env :=
  { upsertResult := fun n => if n = 3 then some (.store "disk full") else none,
    download := .ok {} }

/-- Concrete request used by the counterexamples. -/
def c1Req : Request :=
  { url := "https://example.com/v1" }

/-- C1 counterexample: under the store behavior where the terminal persist
fails, the run's snapshot statuses contain Success followed by Failed — `fail`
overwrites the already-Success status — so Status is not frozen after its first
transition out of InProgress, refuting the claim as stated. -/
theorem c1_counterexample :
    ¬ StatusFrozen (statusesOf (handle c1Env c1Req).1) := by decide

/-- C1 amended: among the notified snapshots and among the successfully
persisted snapshots, Status leaves InProgress at most once and is never changed
afterwards; the full snapshot sequence (failed persist attempts included) is
frozen as well whenever the terminal persist does not fail — the sole exception
being the terminal-persist failure, where the in-memory Success is overwritten
with Failed but was never successfully persisted nor notified; and every run
ends in a terminal status. -/
theorem c1_status_frozen (env : Env) (req : Request) :
    StatusFrozen ((notified (handle env req).1).map Process.status)
    ∧ StatusFrozen ((persistedOk (handle env req).1).map Process.status)
    ∧ (env.upsertResult 3 = none → StatusFrozen (statusesOf (handle env req).1))
    ∧ ((handle env req).2.status = .success ∨ (handle env req).2.status = .failed) := by
  rcases handle_split env req with ⟨e, h0⟩ | ⟨h0, e, hv⟩ | ⟨h0, hv, e, h1⟩
    | ⟨h0, hv, h1, e, hd⟩ | ⟨ep, h0, hv, h1, hd, e, h2⟩ | ⟨ep, h0, hv, h1, hd, h2, e, hb⟩
    | ⟨ep, h0, hv, h1, hd, h2, hb, e, h3⟩ | ⟨ep, h0, hv, h1, hd, h2, hb, h3⟩
  · rw [handle_createErr env req e h0]
    refine ⟨?_, ?_, ?_, ?_⟩ <;>
      rcases hf : env.upsertResult 1 with _ | e1 <;>
        simp [notified, persistedOk, statusesOf, snapshots, snapshotOf, hf,
          failProc_status, mkProcess_status]
  · rw [handle_validateErr env req e h0 hv]
    refine ⟨?_, ?_, ?_, ?_⟩ <;>
      rcases hf : env.upsertResult 1 with _ | e1 <;>
        simp [notified, persistedOk, statusesOf, snapshots, snapshotOf, hf,
          failProc_status, created_status]
  · rw [handle_downPersistErr env req e h0 hv h1]
    refine ⟨?_, ?_, ?_, ?_⟩ <;>
      rcases hf : env.upsertResult 2 with _ | e2 <;>
        simp [notified, persistedOk, statusesOf, snapshots, snapshotOf, hf,
          failProc_status, created_status, downP_status]
  · rw [handle_downloadErr env req e h0 hv h1 hd]
    refine ⟨?_, ?_, ?_, ?_⟩ <;>
      rcases hf : env.upsertResult 2 with _ | e2 <;>
        simp [notified, persistedOk, statusesOf, snapshots, snapshotOf, hf,
          failProc_status, created_status, downP_status]
  · rw [handle_pubPersistErr env req ep e h0 hv h1 hd h2]
    refine ⟨?_, ?_, ?_, ?_⟩ <;>
      rcases hf : env.upsertResult 3 with _ | e3 <;>
        simp [notified, persistedOk, statusesOf, snapshots, snapshotOf, hf,
          failProc_status, created_status, downP_status, pubP_status]
  · rw [handle_buildErr env req ep e h0 hv h1 hd h2 hb]
    refine ⟨?_, ?_, ?_, ?_⟩ <;>
      rcases hf : env.upsertResult 3 with _ | e3 <;>
        simp [notified, persistedOk, statusesOf, snapshots, snapshotOf, hf,
          failProc_status, created_status, downP_status, pubP_status]
  · rw [handle_succPersistErr env req ep e h0 hv h1 hd h2 hb h3]
    refine ⟨?_, ?_, ?_, ?_⟩ <;>
      rcases hf : env.upsertResult 4 with _ | e4 <;>
        simp [notified, persistedOk, statusesOf, snapshots, snapshotOf, hf, h3,
          failProc_status, created_status, downP_status, pubP_status, succP_status]
  · rw [handle_ok env req ep h0 hv h1 hd h2 hb h3]
    refine ⟨?_, ?_, ?_, ?_⟩ <;>
      simp [notified, persistedOk, statusesOf, snapshots, snapshotOf,
        created_status, downP_status, pubP_status, succP_status]

/-- Behavior where every collaborator call succeeds. -/
def c1EnvOk : Env :=
  { upsertResult := fun _ => none, download := .ok {} }

/-- C1 witness: on a concrete fully successful run the notified, persisted and
full snapshot status sequences are frozen and the run ends Success. -/
theorem c1_status_frozen_witness :
    StatusFrozen ((notified (handle c1EnvOk c1Req).1).map Process.status)
    ∧ StatusFrozen (statusesOf (handle c1EnvOk c1Req).1)
    ∧ ((handle c1EnvOk c1Req).2.status = .success ∨
        (handle c1EnvOk c1Req).2.status = .failed) :=
  ⟨(c1_status_frozen c1EnvOk c1Req).1,
   (c1_status_frozen c1EnvOk c1Req).2.2.1 rfl,
   (c1_status_frozen c1EnvOk c1Req).2.2.2⟩

/-- Relation between consecutive trace events: a ProcessUpsert call — whatever
its outcome — is immediately followed by a notification of the same snapshot. -/
def persistThenNotify (a b : Event) : Prop :=
  match a with
  | .persist p _ => b = Event.notify p
  | _ => True

instance (a b : Event) : Decidable (persistThenNotify a b) :=
  match a with
  | .persist p _ => inferInstanceAs (Decidable (b = Event.notify p))
  | .notify _ => inferInstanceAs (Decidable True)
  | .downloadCall => inferInstanceAs (Decidable True)
  | .buildCall => inferInstanceAs (Decidable True)

/-- Relation between consecutive trace events: a successful ProcessUpsert call
is immediately followed by a notification of the same snapshot. -/
def persistOkThenNotify (a b : Event) : Prop :=
  match a with
  | .persist p none => b = Event.notify p
  | _ => True

instance (a b : Event) : Decidable (persistOkThenNotify a b) :=
  match a with
  | .persist p none => inferInstanceAs (Decidable (b = Event.notify p))
  | .persist _ (some _) => inferInstanceAs (Decidable True)
  | .notify _ => inferInstanceAs (Decidable True)
  | .downloadCall => inferInstanceAs (Decidable True)
  | .buildCall => inferInstanceAs (Decidable True)

/-- Store behavior whose second ProcessUpsert call — the pre-download persist —
fails; every other collaborator call succeeds. -/
def c4Env : Env :=
  { upsertResult := fun n => if n = 1 then some (.store "disk full") else none }

/-- C4 counterexample: when the pre-download persist fails, `update` returns
early without notifying, so that persist call is not followed by a notification
of its snapshot (the next event is the fail transition's own persist), refuting
the claim that every persist is notified even on persist error. -/
theorem c4_counterexample :
    ¬ List.Chain' persistThenNotify (handle c4Env c1Req).1 := by
  intro h
  rw [handle_downPersistErr c4Env c1Req (.store "disk full") rfl rfl rfl] at h
  simp [List.chain'_cons, persistThenNotify] at h

/-- C4 amended: every successful persist of a run is immediately followed by a
notification of the persisted snapshot; a persist that fails inside the step
update emits no notification for that snapshot and instead triggers the fail
transition, whose own persist — successful or not — is always followed by a
notification; consequently every run's trace ends with a notification of the
terminal snapshot. -/
theorem c4_notifications (env : Env) (req : Request) :
    List.Chain' persistOkThenNotify (handle env req).1
    ∧ (∀ (n : Nat) (p : Process) (e : Err),
        (fail env n p e).1 =
          [.persist (failProc env n p e) (env.upsertResult n),
           .notify (failProc env n p e)])
    ∧ (handle env req).1.getLast? = some (.notify (handle env req).2) := by
  refine ⟨?_, fun n p e => congrArg Prod.fst (fail_eq env n p e), ?_⟩ <;>
  · rcases handle_split env req with ⟨e, h0⟩ | ⟨h0, e, hv⟩ | ⟨h0, hv, e, h1⟩
      | ⟨h0, hv, h1, e, hd⟩ | ⟨ep, h0, hv, h1, hd, e, h2⟩ | ⟨ep, h0, hv, h1, hd, h2, e, hb⟩
      | ⟨ep, h0, hv, h1, hd, h2, hb, e, h3⟩ | ⟨ep, h0, hv, h1, hd, h2, hb, h3⟩
    · rw [handle_createErr env req e h0]
      rcases hf : env.upsertResult 1 with _ | e1 <;> simp [hf, persistOkThenNotify]
    · rw [handle_validateErr env req e h0 hv]
      rcases hf : env.upsertResult 1 with _ | e1 <;> simp [hf, persistOkThenNotify]
    · rw [handle_downPersistErr env req e h0 hv h1]
      rcases hf : env.upsertResult 2 with _ | e2 <;> simp [hf, persistOkThenNotify]
    · rw [handle_downloadErr env req e h0 hv h1 hd]
      rcases hf : env.upsertResult 2 with _ | e2 <;> simp [hf, persistOkThenNotify]
    · rw [handle_pubPersistErr env req ep e h0 hv h1 hd h2]
      rcases hf : env.upsertResult 3 with _ | e3 <;> simp [hf, persistOkThenNotify]
    · rw [handle_buildErr env req ep e h0 hv h1 hd h2 hb]
      rcases hf : env.upsertResult 3 with _ | e3 <;> simp [hf, persistOkThenNotify]
    · rw [handle_succPersistErr env req ep e h0 hv h1 hd h2 hb h3]
      rcases hf : env.upsertResult 4 with _ | e4 <;> simp [hf, persistOkThenNotify]
    · rw [handle_ok env req ep h0 hv h1 hd h2 hb h3]
      simp [persistOkThenNotify]

/-- C3: `validate` rejects with the already-in-progress error exactly when the
store counts more than one InProgress process for the URL (the candidate itself
included); otherwise, with Force unset, it rejects with the already-exists error
exactly when the store returns at least one episode for the original URL; with
Force set the episode lookup is skipped and validation passes; and whenever
validation fails, `handle` marks the process Failed with that error and never
invokes the Downloader or the Builder. -/
theorem c3_validate :
    (∀ (env : Env) (p : Process) (c : Nat), env.countByUrlInProgress = .ok c →
      (validate env p = some .episodeInProgress ↔ 1 < c))
    ∧ (∀ (env : Env) (p : Process) (c : Nat) (eps : List Episode),
        env.countByUrlInProgress = .ok c → c ≤ 1 → p.request.force = false →
        env.episodesByOriginalUrl = .ok eps →
        (validate env p = some .episodeExists ↔ eps ≠ []))
    ∧ (∀ (env : Env) (p : Process) (c : Nat), env.countByUrlInProgress = .ok c →
        c ≤ 1 → p.request.force = true → validate env p = none)
    ∧ (∀ (env : Env) (p : Process) (q : Except Err (List Episode)),
        p.request.force = true →
        validate { env with episodesByOriginalUrl := q } p = validate env p)
    ∧ (∀ (env : Env) (req : Request) (e : Err), env.upsertResult 0 = none →
        validate env (created env req) = some e →
        (handle env req).2.status = .failed ∧ (handle env req).2.error = some e ∧
        Event.downloadCall ∉ (handle env req).1 ∧ Event.buildCall ∉ (handle env req).1) := by
  refine ⟨?_, ?_, ?_, ?_, ?_⟩
  · intro env p c hc
    unfold validate
    rw [hc]
    by_cases hgt : 1 < c
    · simp [hgt]
    · rcases hf : p.request.force
      · rcases he : env.episodesByOriginalUrl with e | eps
        · simp [hgt, he]
        · by_cases hlen : eps.length > 0 <;> simp [hgt, he, hlen]
      · simp [hgt]
  · intro env p c eps hc hle hf he
    unfold validate
    rw [hc, he]
    have hgt : ¬ 1 < c := by omega
    rcases eps with _ | ⟨a, rest⟩ <;> simp [hgt, hf]
  · intro env p c hc hle hf
    unfold validate
    rw [hc]
    have hgt : ¬ 1 < c := by omega
    simp [hgt, hf]
  · intro env p q hf
    unfold validate
    rcases env.countByUrlInProgress with e | c
    · rfl
    · by_cases hgt : 1 < c <;> simp [hgt, hf]
  · intro env req e h0 hv
    rw [handle_validateErr env req e h0 hv]
    simp [failProc_status, failProc_error]

/-- Store behavior reporting two InProgress processes for the URL. -/
def c3EnvBusy : Env :=
  { upsertResult := fun _ => none, countByUrlInProgress := .ok 2 }

/-- Store behavior reporting an already existing episode for the URL. -/
def c3EnvDup : Env :=
  { upsertResult := fun _ => none, episodesByOriginalUrl := .ok [{}] }

/-- Request with the Force flag set. -/
def c3ReqForce : Request :=
  { url := "https://example.com/v1", force := true }

/-- C3 witness: concrete evaluations of the validate contract — rejection on a
duplicate in-progress count, rejection on an existing episode, acceptance under
Force, and the Failed outcome of a rejected run. -/
theorem c3_validate_witness :
    validate c3EnvBusy (mkProcess c1Req) = some .episodeInProgress
    ∧ validate c3EnvDup (mkProcess c1Req) = some .episodeExists
    ∧ validate c3EnvDup (mkProcess c3ReqForce) = none
    ∧ (handle c3EnvDup c1Req).2.status = .failed :=
  ⟨(c3_validate.1 c3EnvBusy (mkProcess c1Req) 2 rfl).mpr (by decide),
   (c3_validate.2.1 c3EnvDup (mkProcess c1Req) 1 [{}] rfl (by decide) rfl rfl).mpr (by decide),
   c3_validate.2.2.1 c3EnvDup (mkProcess c3ReqForce) 1 rfl (by decide) rfl,
   (c3_validate.2.2.2.2 c3EnvDup c1Req .episodeExists rfl (by decide)).1⟩

/-- C5: a Downloader error makes `handle` fail the Process with exactly that
error, the Builder is never invoked and no snapshot of the run — nor its final
state — ever carries Status Success; and the Downloader itself
(EpisodeService.Download) wraps the underlying platform download error as a
download-failure error before returning it. -/
theorem c5_download_failure :
    (∀ (env : Env) (req : Request) (e : Err),
      env.upsertResult 0 = none → validate env (created env req) = none →
      env.upsertResult 1 = none → env.download = .error e →
      (handle env req).2.status = .failed ∧ (handle env req).2.error = some e ∧
      Event.buildCall ∉ (handle env req).1 ∧
      ∀ p ∈ snapshots (handle env req).1, p.status ≠ .success)
    ∧ (∀ (eenv : EpisodeEnv) (req : Request) (pl : Platform) (e : Err),
        findPlatform eenv.platforms (effReq eenv req).url = some pl →
        pl.download (effReq eenv req) = .error e →
        episodeDownload eenv req = .error (.downloadFailed e)) := by
  constructor
  · intro env req e h0 hv h1 hd
    rw [handle_downloadErr env req e h0 hv h1 hd]
    refine ⟨failProc_status env 2 _ e, failProc_error env 2 _ e, by simp, ?_⟩
    intro p hp
    simp [snapshots, snapshotOf] at hp
    rcases hp with rfl | rfl | rfl <;>
      simp [created_status, downP_status, failProc_status]
  · intro eenv req pl e hfind hdl
    simp [episodeDownload, hfind, hdl]

/-- Store/collaborator behavior where the Downloader fails with a wrapped
download error and everything else succeeds. -/
def c5Env : Env :=
  { upsertResult := fun _ => none,
    download := .error (.downloadFailed (.external "yt-dlp exited 1")) }

/-- A platform that matches every URL and always fails to download. -/
def c5Platform : Platform :=
  { urlMatch := fun _ => true, download := fun _ => .error (.external "yt-dlp exited 1") }

/-- EpisodeService collaborators with the single failing platform. -/
def c5EpisodeEnv : EpisodeEnv :=
  { platforms := [c5Platform] }

/-- C5 witness: a concrete failing download — the run ends Failed with the
download error, the Builder is never called, and EpisodeService.Download wraps
the platform error. -/
theorem c5_download_failure_witness :
    (handle c5Env c1Req).2.status = .failed
    ∧ (handle c5Env c1Req).2.error = some (.downloadFailed (.external "yt-dlp exited 1"))
    ∧ Event.buildCall ∉ (handle c5Env c1Req).1
    ∧ episodeDownload c5EpisodeEnv c1Req = .error (.downloadFailed (.external "yt-dlp exited 1")) :=
  ⟨(c5_download_failure.1 c5Env c1Req _ rfl (by decide) rfl rfl).1,
   (c5_download_failure.1 c5Env c1Req _ rfl (by decide) rfl rfl).2.1,
   (c5_download_failure.1 c5Env c1Req _ rfl (by decide) rfl rfl).2.2.1,
   c5_download_failure.2 c5EpisodeEnv c1Req c5Platform _ rfl rfl⟩

/-- C6: when the Builder fails after a successful download, the run ends Failed
but the fail transition changed only the Status and Error fields of the
pre-failure process — Episode stays attached, Step stays Publishing, Request
and store-assigned id are unchanged — and that snapshot, episode included, is
passed to the store; in general `fail` never modifies Episode, Step or
Request. -/
theorem c6_build_failure :
    (∀ (env : Env) (req : Request) (ep : Episode) (e : Err),
      env.upsertResult 0 = none → validate env (created env req) = none →
      env.upsertResult 1 = none → env.download = .ok ep →
      env.upsertResult 2 = none → env.build = some e →
      (handle env req).2 = { pubP env req ep with status := .failed, error := some e }
      ∧ (handle env req).2.status = .failed
      ∧ (handle env req).2.episode = some ep
      ∧ (handle env req).2.step = .publishing
      ∧ (handle env req).2.request = req
      ∧ (handle env req).2.id = env.newId
      ∧ Event.persist { pubP env req ep with status := .failed, error := some e }
          (env.upsertResult 3) ∈ (handle env req).1)
    ∧ (∀ (env : Env) (n : Nat) (p : Process) (e : Err),
        ((fail env n p e).2).episode = p.episode ∧ ((fail env n p e).2).step = p.step ∧
        ((fail env n p e).2).request = p.request) := by
  constructor
  · intro env req ep e h0 hv h1 hd h2 hb
    rw [handle_buildErr env req ep e h0 hv h1 hd h2 hb]
    have hfp := failProc_id_self env 3 (pubP env req ep) e rfl
    rw [hfp]
    refine ⟨rfl, rfl, rfl, rfl, rfl, rfl, by simp⟩
  · intro env n p e
    rw [fail_eq]
    exact ⟨failProc_episode env n p e, failProc_step env n p e, failProc_request env n p e⟩

/-- Behavior where the download succeeds and the feed build fails. -/
def c6Env : Env :=
  { upsertResult := fun _ => none, download := .ok {}, build := some (.external "rss write") }

/-- C6 witness: a concrete build failure — the final process is Failed yet still
carries the downloaded episode at step Publishing. -/
theorem c6_build_failure_witness :
    (handle c6Env c1Req).2.status = .failed
    ∧ (handle c6Env c1Req).2.episode = some {}
    ∧ (handle c6Env c1Req).2.step = .publishing :=
  ⟨(c6_build_failure.1 c6Env c1Req {} _ rfl (by decide) rfl rfl rfl rfl).2.1,
   (c6_build_failure.1 c6Env c1Req {} _ rfl (by decide) rfl rfl rfl rfl).2.2.1,
   (c6_build_failure.1 c6Env c1Req {} _ rfl (by decide) rfl rfl rfl rfl).2.2.2.1⟩

/-- C9: a snapshot of a run carries a non-nil Episode only when the Downloader
was called and returned exactly that episode successfully; whenever the
Downloader never returns successfully — it fails, or it is never called because
validation or an earlier persist failed — every snapshot and the final process
carry Episode = nil. -/
theorem c9_episode_after_download (env : Env) (req : Request) :
    (∀ p ∈ snapshots (handle env req).1, ∀ ep, p.episode = some ep →
      env.download = .ok ep ∧ Event.downloadCall ∈ (handle env req).1)
    ∧ ((∀ ep, env.download ≠ .ok ep) →
        ∀ p ∈ snapshots (handle env req).1, p.episode = none)
    ∧ (Event.downloadCall ∉ (handle env req).1 →
        ∀ p ∈ snapshots (handle env req).1, p.episode = none)
    ∧ (∀ ep, (handle env req).2.episode = some ep → env.download = .ok ep) := by
  rcases handle_split env req with ⟨e, h0⟩ | ⟨h0, e, hv⟩ | ⟨h0, hv, e, h1⟩
    | ⟨h0, hv, h1, e, hd⟩ | ⟨ep, h0, hv, h1, hd, e, h2⟩ | ⟨ep, h0, hv, h1, hd, h2, e, hb⟩
    | ⟨ep, h0, hv, h1, hd, h2, hb, e, h3⟩ | ⟨ep, h0, hv, h1, hd, h2, hb, h3⟩
  · rw [handle_createErr env req e h0]
    refine ⟨?_, ?_, ?_, ?_⟩
    · intro p hp ep2 hep
      simp [snapshots, snapshotOf] at hp
      rcases hp with rfl | rfl <;> simp_all [failProc_episode, mkProcess_episode]
    · intro hno p hp
      simp [snapshots, snapshotOf] at hp
      rcases hp with rfl | rfl <;> simp_all [failProc_episode, mkProcess_episode]
    · intro hnc p hp
      simp [snapshots, snapshotOf] at hp
      rcases hp with rfl | rfl <;> simp_all [failProc_episode, mkProcess_episode]
    · intro ep2 hep
      simp_all [failProc_episode, mkProcess_episode]
  · rw [handle_validateErr env req e h0 hv]
    refine ⟨?_, ?_, ?_, ?_⟩
    · intro p hp ep2 hep
      simp [snapshots, snapshotOf] at hp
      rcases hp with rfl | rfl <;> simp_all [failProc_episode, created_episode]
    · intro hno p hp
      simp [snapshots, snapshotOf] at hp
      rcases hp with rfl | rfl <;> simp_all [failProc_episode, created_episode]
    · intro hnc p hp
      simp [snapshots, snapshotOf] at hp
      rcases hp with rfl | rfl <;> simp_all [failProc_episode, created_episode]
    · intro ep2 hep
      simp_all [failProc_episode, created_episode]
  · rw [handle_downPersistErr env req e h0 hv h1]
    refine ⟨?_, ?_, ?_, ?_⟩
    · intro p hp ep2 hep
      simp [snapshots, snapshotOf] at hp
      rcases hp with rfl | rfl | rfl <;>
        simp_all [failProc_episode, created_episode, downP_episode]
    · intro hno p hp
      simp [snapshots, snapshotOf] at hp
      rcases hp with rfl | rfl | rfl <;>
        simp_all [failProc_episode, created_episode, downP_episode]
    · intro hnc p hp
      simp [snapshots, snapshotOf] at hp
      rcases hp with rfl | rfl | rfl <;>
        simp_all [failProc_episode, created_episode, downP_episode]
    · intro ep2 hep
      simp_all [failProc_episode, created_episode, downP_episode]
  · rw [handle_downloadErr env req e h0 hv h1 hd]
    refine ⟨?_, ?_, ?_, ?_⟩
    · intro p hp ep2 hep
      simp [snapshots, snapshotOf] at hp
      rcases hp with rfl | rfl | rfl <;>
        simp_all [failProc_episode, created_episode, downP_episode]
    · intro hno p hp
      simp [snapshots, snapshotOf] at hp
      rcases hp with rfl | rfl | rfl <;>
        simp_all [failProc_episode, created_episode, downP_episode]
    · intro hnc p hp
      simp at hnc
    · intro ep2 hep
      simp_all [failProc_episode, created_episode, downP_episode]
  · rw [handle_pubPersistErr env req ep e h0 hv h1 hd h2]
    refine ⟨?_, ?_, ?_, ?_⟩
    · intro p hp ep2 hep
      simp [snapshots, snapshotOf] at hp
      rcases hp with rfl | rfl | rfl | rfl <;>
        simp_all [failProc_episode, created_episode, downP_episode, pubP_episode]
    · intro hno p hp
      exact absurd hd (hno ep)
    · intro hnc p hp
      simp at hnc
    · intro ep2 hep
      simp_all [failProc_episode, created_episode, downP_episode, pubP_episode]
  · rw [handle_buildErr env req ep e h0 hv h1 hd h2 hb]
    refine ⟨?_, ?_, ?_, ?_⟩
    · intro p hp ep2 hep
      simp [snapshots, snapshotOf] at hp
      rcases hp with rfl | rfl | rfl | rfl <;>
        simp_all [failProc_episode, created_episode, downP_episode, pubP_episode]
    · intro hno p hp
      exact absurd hd (hno ep)
    · intro hnc p hp
      simp at hnc
    · intro ep2 hep
      simp_all [failProc_episode, created_episode, downP_episode, pubP_episode]
  · rw [handle_succPersistErr env req ep e h0 hv h1 hd h2 hb h3]
    refine ⟨?_, ?_, ?_, ?_⟩
    · intro p hp ep2 hep
      simp [snapshots, snapshotOf] at hp
      rcases hp with rfl | rfl | rfl | rfl | rfl <;>
        simp_all [failProc_episode, created_episode, downP_episode, pubP_episode, succP_episode]
    · intro hno p hp
      exact absurd hd (hno ep)
    · intro hnc p hp
      simp at hnc
    · intro ep2 hep
      simp_all [failProc_episode, created_episode, downP_episode, pubP_episode, succP_episode]
  · rw [handle_ok env req ep h0 hv h1 hd h2 hb h3]
    refine ⟨?_, ?_, ?_, ?_⟩
    · intro p hp ep2 hep
      simp [snapshots, snapshotOf] at hp
      rcases hp with rfl | rfl | rfl | rfl <;>
        simp_all [created_episode, downP_episode, pubP_episode, succP_episode]
    · intro hno p hp
      exact absurd hd (hno ep)
    · intro hnc p hp
      simp at hnc
    · intro ep2 hep
      simp_all [created_episode, downP_episode, pubP_episode, succP_episode]

/-- Behavior with a successful download of the default episode. -/
def c9Env : Env :=
  { upsertResult := fun _ => none, download := .ok {} }

/-- Behavior whose Downloader fails with the no-matching-platform error. -/
def c9EnvErr : Env :=
  { upsertResult := fun _ => none, download := .error .noMatchingPlatform }

/-- C9 witness: on a successful run the terminal snapshot's episode pins down
the Downloader result and the Downloader was called, while on a failed-download
run the created snapshot carries no episode. -/
theorem c9_witness :
    c9Env.download = .ok {}
    ∧ Event.downloadCall ∈ (handle c9Env c1Req).1
    ∧ (created c9EnvErr c1Req).episode = none :=
  ⟨((c9_episode_after_download c9Env c1Req).1 (succP c9Env c1Req {})
      (by decide) {} (by decide)).1,
   ((c9_episode_after_download c9Env c1Req).1 (succP c9Env c1Req {})
      (by decide) {} (by decide)).2,
   (c9_episode_after_download c9EnvErr c1Req).2.1
      (fun ep h => by simp [c9EnvErr] at h) (created c9EnvErr c1Req) (by decide)⟩

/-- Failed version of a recovered process as written back by Init: Status set to
Failed, Error set to the fixed interrupted error, id assigned by the store if it
was still 0. -/
def failedOf (env : Env) (p : Process) : Process :=
  let p1 := { p with status := Status.failed, error := some Err.processInterrupted }
  if p1.id = 0 then { p1 with id := env.newId } else p1

lemma failedOf_status (env : Env) (p : Process) : (failedOf env p).status = .failed := by
  simp only [failedOf]
  split <;> rfl

lemma failedOf_error (env : Env) (p : Process) :
    (failedOf env p).error = some .processInterrupted := by
  simp only [failedOf]
  split <;> rfl

/-- Recovery loop with every upsert succeeding: no error, and each fetched
process is persisted and notified exactly once, in order, in its failed form. -/
lemma initLoop_all_ok (env : Env) :
    ∀ (ps : List Process) (n : Nat),
      (∀ k, k < ps.length → env.upsertResult (n + k) = none) →
      (initLoop env n ps).2 = none ∧
      notified (initLoop env n ps).1 = ps.map (failedOf env) ∧
      persistedOk (initLoop env n ps).1 = ps.map (failedOf env) := by
  intro ps
  induction ps with
  | nil =>
    intro n h
    simp [initLoop, notified, persistedOk]
  | cons p rest ih =>
    intro n h
    have h0 : env.upsertResult n = none := by
      have := h 0 (by simp)
      rwa [Nat.add_zero] at this
    have hrest := ih (n + 1) (fun k hk => by
      have := h (k + 1) (by simpa using Nat.succ_lt_succ hk)
      rwa [show n + (k + 1) = n + 1 + k by omega] at this)
    simp only [initLoop, processUpsert, h0]
    refine ⟨hrest.1, ?_, ?_⟩
    · simp only [notified, List.filterMap_append, List.filterMap_cons, List.map_cons]
      simp [notified] at hrest
      simp [hrest.2.1, failedOf]
    · simp only [persistedOk, List.filterMap_append, List.filterMap_cons, List.map_cons]
      simp [persistedOk] at hrest
      simp [hrest.2.2, failedOf]

/-- Recovery loop where the upsert of the k-th process is the first to fail:
the loop aborts with the wrapped upsert error. -/
lemma initLoop_first_err (env : Env) :
    ∀ (ps : List Process) (n k : Nat) (e : Err), k < ps.length →
      (∀ j, j < k → env.upsertResult (n + j) = none) →
      env.upsertResult (n + k) = some e →
      (initLoop env n ps).2 = some (.processUpsertFailed e) := by
  intro ps
  induction ps with
  | nil =>
    intro n k e hk
    simp at hk
  | cons p rest ih =>
    intro n k e hk hprev hke
    rcases k with _ | k2
    · rw [Nat.add_zero] at hke
      simp [initLoop, processUpsert, hke]
    · have h0 : env.upsertResult n = none := by
        have := hprev 0 (Nat.succ_pos _)
        rwa [Nat.add_zero] at this
      simp only [initLoop, processUpsert, h0]
      have := ih (n + 1) k2 e (by simpa using Nat.lt_of_succ_lt_succ hk)
        (fun j hj => by
          have := hprev (j + 1) (Nat.succ_lt_succ hj)
          rwa [show n + (j + 1) = n + 1 + j by omega] at this)
        (by rwa [show n + (k2 + 1) = n + 1 + k2 by omega] at hke)
      simpa using this

/-- C7: Init fetches the InProgress processes and fails each of them — when the
fetch errors Init aborts with the wrapped fetch error and does nothing; when
every upsert succeeds Init returns nil after persisting and notifying exactly
one failed-with-interrupted-error snapshot per process, in order; and when some
upsert fails (the earlier ones having succeeded) Init aborts with the wrapped
upsert error. -/
theorem c7_recovery :
    (∀ (env : Env) (e : Err), env.processesInProgress = .error e →
      svcInit env = ([], some (.processGetByStatus e)))
    ∧ (∀ (env : Env) (ps : List Process),
        env.processesInProgress = .ok ps →
        (∀ k, k < ps.length → env.upsertResult k = none) →
        (svcInit env).2 = none
        ∧ notified (svcInit env).1 = ps.map (failedOf env)
        ∧ persistedOk (svcInit env).1 = ps.map (failedOf env)
        ∧ (notified (svcInit env).1).length = ps.length
        ∧ ∀ q ∈ notified (svcInit env).1,
            q.status = .failed ∧ q.error = some .processInterrupted)
    ∧ (∀ (env : Env) (ps : List Process) (k : Nat) (e : Err),
        env.processesInProgress = .ok ps → k < ps.length →
        (∀ j, j < k → env.upsertResult j = none) → env.upsertResult k = some e →
        (svcInit env).2 = some (.processUpsertFailed e)) := by
  refine ⟨?_, ?_, ?_⟩
  · intro env e he
    simp [svcInit, he]
  · intro env ps hps hok
    have hall := initLoop_all_ok env ps 0 (fun k hk => by simpa using hok k hk)
    have hinit : svcInit env = initLoop env 0 ps := by simp [svcInit, hps]
    rw [hinit]
    refine ⟨hall.1, hall.2.1, hall.2.2, by rw [hall.2.1]; simp, ?_⟩
    intro q hq
    rw [hall.2.1] at hq
    simp only [List.mem_map] at hq
    obtain ⟨p, _, rfl⟩ := hq
    exact ⟨failedOf_status env p, failedOf_error env p⟩
  · intro env ps k e hps hk hprev hke
    have hinit : svcInit env = initLoop env 0 ps := by simp [svcInit, hps]
    rw [hinit]
    exact initLoop_first_err env ps 0 k e hk (fun j hj => by simpa using hprev j hj)
      (by simpa using hke)

/-- First crashed process of the recovery scenario. -/
def c7P1 : Process :=
  { id := 1, request := {}, step := .downloading, status := .inProgress }

/-- Second crashed process of the recovery scenario. -/
def c7P2 : Process :=
  { id := 2, request := {}, step := .publishing, status := .inProgress }

/-- Store state left by a simulated crash: two InProgress processes; all
recovery upserts succeed. -/
def c7Env : Env :=
  { upsertResult := fun _ => none,
    processesInProgress := .ok [c7P1, c7P2] }

/-- Store whose recovery fetch fails. -/
def c7EnvFetchErr : Env :=
  { upsertResult := fun _ => none,
    processesInProgress := .error (.store "db locked") }

/-- C7 witness: recovering two crashed InProgress processes succeeds, notifies
exactly twice, and both notified snapshots are Failed with the interrupted
error; a failing fetch aborts Init with the wrapped fetch error. -/
theorem c7_recovery_witness :
    (svcInit c7Env).2 = none
    ∧ (notified (svcInit c7Env).1).length = 2
    ∧ ((failedOf c7Env c7P1).status = .failed
        ∧ (failedOf c7Env c7P1).error = some .processInterrupted)
    ∧ ((failedOf c7Env c7P2).status = .failed
        ∧ (failedOf c7Env c7P2).error = some .processInterrupted)
    ∧ svcInit c7EnvFetchErr = ([], some (.processGetByStatus (.store "db locked"))) :=
  ⟨(c7_recovery.2.1 c7Env _ rfl (fun _ _ => rfl)).1,
   (c7_recovery.2.1 c7Env _ rfl (fun _ _ => rfl)).2.2.2.1,
   (c7_recovery.2.1 c7Env _ rfl (fun _ _ => rfl)).2.2.2.2 _ (by decide),
   (c7_recovery.2.1 c7Env _ rfl (fun _ _ => rfl)).2.2.2.2 _ (by decide),
   c7_recovery.1 c7EnvFetchErr _ rfl⟩

/-- C8: `sendRequest` returns nil exactly when the select resolved to the
request being handed to a worker; when the 2-second timeout fires first it
returns the busy error, and when the shutdown context fires first it returns
the wrapped cancellation error; in every case the function makes no store call,
so a rejected request leaves no side effect. -/
theorem c8_admission (o : SelectOutcome) :
    ((sendRequest o).2 = none ↔ o = .sent)
    ∧ (sendRequest SelectOutcome.timedOut).2 = some .processorBusy
    ∧ (∀ e, (sendRequest (SelectOutcome.ctxDone e)).2 = some (.contextDone e))
    ∧ (sendRequest o).1 = []
    ∧ sendRequestTimeoutSeconds = 2 := by
  rcases o with _ | _ | e <;>
    simp [sendRequest, sendRequestTimeoutSeconds]

/-- C10: every run of `handle` starts with a ProcessUpsert of the freshly built
process — Step Creating, Status InProgress, the submitted request embedded, and,
when the insert succeeds, the store-assigned id (non-zero whenever the store
assigns non-zero row ids); and a run whose creation succeeded but whose
validation was rejected still leaves a persisted record: the same process,
updated to Status Failed with the validation error, is passed to the store
again. -/
theorem c10_always_persists (env : Env) (req : Request) :
    (∃ q r, ((handle env req).1).head? = some (.persist q r)
      ∧ q.step = .creating ∧ q.status = .inProgress ∧ q.request = req
      ∧ r = env.upsertResult 0
      ∧ (env.upsertResult 0 = none → q.id = env.newId)
      ∧ (env.upsertResult 0 = none → env.newId ≠ 0 → q.id ≠ 0))
    ∧ (∀ e, env.upsertResult 0 = none → validate env (created env req) = some e →
        Event.persist (failProc env 1 (created env req) e) (env.upsertResult 1)
          ∈ (handle env req).1
        ∧ (failProc env 1 (created env req) e).status = .failed
        ∧ (failProc env 1 (created env req) e).error = some e
        ∧ (failProc env 1 (created env req) e).id = env.newId
        ∧ (failProc env 1 (created env req) e).request = req) := by
  constructor
  · rcases handle_split env req with ⟨e, h0⟩ | ⟨h0, e, hv⟩ | ⟨h0, hv, e, h1⟩
      | ⟨h0, hv, h1, e, hd⟩ | ⟨ep, h0, hv, h1, hd, e, h2⟩ | ⟨ep, h0, hv, h1, hd, h2, e, hb⟩
      | ⟨ep, h0, hv, h1, hd, h2, hb, e, h3⟩ | ⟨ep, h0, hv, h1, hd, h2, hb, h3⟩
    · rw [handle_createErr env req e h0]
      exact ⟨mkProcess req, some e, rfl, rfl, rfl, rfl, h0.symm,
        fun hn => absurd h0 (by simp [hn]), fun hn => absurd h0 (by simp [hn])⟩
    all_goals
      first
      | exact ⟨created env req, none,
          (by rw [handle_validateErr env req e h0 hv]; rfl), rfl, rfl, rfl, h0.symm,
          fun _ => rfl, fun _ hnz => hnz⟩
      | exact ⟨created env req, none,
          (by rw [handle_downPersistErr env req e h0 hv h1]; rfl), rfl, rfl, rfl, h0.symm,
          fun _ => rfl, fun _ hnz => hnz⟩
      | exact ⟨created env req, none,
          (by rw [handle_downloadErr env req e h0 hv h1 hd]; rfl), rfl, rfl, rfl, h0.symm,
          fun _ => rfl, fun _ hnz => hnz⟩
      | exact ⟨created env req, none,
          (by rw [handle_pubPersistErr env req ep e h0 hv h1 hd h2]; rfl), rfl, rfl, rfl,
          h0.symm, fun _ => rfl, fun _ hnz => hnz⟩
      | exact ⟨created env req, none,
          (by rw [handle_buildErr env req ep e h0 hv h1 hd h2 hb]; rfl), rfl, rfl, rfl,
          h0.symm, fun _ => rfl, fun _ hnz => hnz⟩
      | exact ⟨created env req, none,
          (by rw [handle_succPersistErr env req ep e h0 hv h1 hd h2 hb h3]; rfl), rfl, rfl,
          rfl, h0.symm, fun _ => rfl, fun _ hnz => hnz⟩
      | exact ⟨created env req, none,
          (by rw [handle_ok env req ep h0 hv h1 hd h2 hb h3]; rfl), rfl, rfl, rfl, h0.symm,
          fun _ => rfl, fun _ hnz => hnz⟩
  · intro e h0 hv
    rw [handle_validateErr env req e h0 hv]
    have hfp := failProc_id_self env 1 (created env req) e rfl
    refine ⟨by simp, failProc_status env 1 _ e, failProc_error env 1 _ e, ?_, ?_⟩
    · rw [hfp]; rfl
    · rw [hfp]; rfl

/-- C10 witness: a run rejected by validation (an episode already exists for the
URL) nevertheless starts with a create persist and later passes the Failed
record to the store. -/
theorem c10_always_persists_witness :
    Event.persist (failProc c3EnvDup 1 (created c3EnvDup c1Req) .episodeExists)
      (c3EnvDup.upsertResult 1) ∈ (handle c3EnvDup c1Req).1
    ∧ (failProc c3EnvDup 1 (created c3EnvDup c1Req) .episodeExists).status = .failed
    ∧ (failProc c3EnvDup 1 (created c3EnvDup c1Req) .episodeExists).id = c3EnvDup.newId
    ∧ (failProc c3EnvDup 1 (created c3EnvDup c1Req) .episodeExists).request = c1Req :=
  ⟨((c10_always_persists c3EnvDup c1Req).2 .episodeExists rfl (by decide)).1,
   ((c10_always_persists c3EnvDup c1Req).2 .episodeExists rfl (by decide)).2.1,
   ((c10_always_persists c3EnvDup c1Req).2 .episodeExists rfl (by decide)).2.2.2.1,
   ((c10_always_persists c3EnvDup c1Req).2 .episodeExists rfl (by decide)).2.2.2.2⟩

end Voxify
